import Mathlib

/-!
Verification of the alert lifecycle tracker and correlation payload protocol
of `demo_sim.py` (EO Strata Demo Simulator).

The Python source is shallowly embedded as follows.

* JSON-like Python values (the values stored in the free-form dicts produced
  by the LLM generator and by `json.loads`) are modelled by the inductive
  type `JVal`; Python `None` is `JVal.null`.
* Python dicts that carry free-form data (the generated-alert record and the
  assembled wire payloads) are modelled as association lists
  `List (String × JVal)` with first-match lookup `pyGet`, mirroring
  `dict.get`.  All dict literals in the source have pairwise-distinct keys,
  so first-match lookup agrees with Python's dict semantics.
* The tracked-alert ledger records are modelled by the structure
  `TrackedRec`: `track_sent_alert` in the source always builds the record
  dict with the same fixed literal key set, so every tracked record carries
  every field, which a structure captures exactly.
* Machine time (`int(time.time())`, `datetime` values) is modelled as `Int`
  (seconds); ISO timestamp strings that are only stored, never interpreted,
  stay `String`.
-/

/-- JSON-like Python value: string, integer, boolean, `None`, or list. -/
inductive JVal where
  | s (v : String)
  | n (v : Int)
  | b (v : Bool)
  | null
  | arr (vs : List JVal)
deriving Repr

/-- Python `dict.get(key)`: first-match lookup in an association list,
`none` when the key is absent (Python returns `None`, which callers in the
source either default away with a second argument or store as-is). -/
def pyGet : List (String × JVal) → String → Option JVal
  | [], _ => none
  | (k, v) :: rest, key => if k = key then some v else pyGet rest key

/-- Python `dict.get(key, default)`. -/
def pyGetD (l : List (String × JVal)) (key : String) (d : JVal) : JVal :=
  (pyGet l key).getD d

mutual
/-- Python `repr` of a JSON-like value, used for the elements when a list is
interpolated into an f-string.  Strings are rendered between single quotes;
Python's escaping of quotes/backslashes inside the string is not modelled
(no claim depends on it, and no tracked value path produces such strings). -/
def pyRepr : JVal → String
  | .s v => "'" ++ v ++ "'"
  | .n v => toString v
  | .b true => "True"
  | .b false => "False"
  | .null => "None"
  | .arr vs => "[" ++ String.intercalate ", " (pyReprList vs) ++ "]"

/-- Pointwise `pyRepr` over a list of values. -/
def pyReprList : List JVal → List String
  | [] => []
  | v :: vs => pyRepr v :: pyReprList vs
end

/-- Python `str()` of a JSON-like value, as applied by f-string
interpolation (`f"Resolved: {...}"` in `resolve_alerts`).  Exact on
strings, integers, booleans and `None`; on lists it delegates to
`pyRepr` elementwise as Python does. -/
def pyStr : JVal → String
  | .s v => v
  | .n v => toString v
  | .b true => "True"
  | .b false => "False"
  | .null => "None"
  | .arr vs => "[" ++ String.intercalate ", " (pyReprList vs) ++ "]"

/-- Embedding of `DemoSimulator.build_bigpanda_payload` (src/demo_sim.py
lines 693-732): assembles the full BigPanda OIM alert payload from the
free-form generated alert.  `now` stands for `int(time.time())`. -/
def build_bigpanda_payload (generated_alert : List (String × JVal))
    (status : String) (now : Int) : List (String × JVal) :=
  -- deps = generated_alert.get("known_dependencies", []);
  -- if isinstance(deps, str): deps = [deps]
  let deps : JVal :=
    match pyGet generated_alert "known_dependencies" with
    | none => JVal.arr []
    | some (JVal.s v) => JVal.arr [JVal.s v]
    | some v => v
  [("status", JVal.s status),
   ("host", pyGetD generated_alert "host" (JVal.s "unknown-host")),
   ("check", pyGetD generated_alert "check" (JVal.s "unknown_check")),
   ("description", pyGetD generated_alert "description" (JVal.s "No description")),
   ("service", pyGetD generated_alert "service" (JVal.s "")),
   ("application", pyGetD generated_alert "application" (JVal.s "")),
   ("cluster", pyGetD generated_alert "cluster" (JVal.s "")),
   ("instance", pyGetD generated_alert "instance" (JVal.s "")),
   ("location", pyGetD generated_alert "location" (JVal.s "")),
   ("environment", pyGetD generated_alert "environment" (JVal.s "production")),
   ("cloud_region", pyGetD generated_alert "cloud_region" (JVal.s "")),
   ("cloud_provider", pyGetD generated_alert "cloud_provider" (JVal.s "")),
   ("cloud_account_id", pyGetD generated_alert "cloud_account_id" (JVal.s "")),
   ("assignment_group", pyGetD generated_alert "assignment_group" (JVal.s "")),
   ("escalation_group", pyGetD generated_alert "escalation_group" (JVal.s "")),
   ("business_criticality", pyGetD generated_alert "business_criticality" (JVal.s "")),
   ("known_dependencies", deps),
   ("business_owner", pyGetD generated_alert "business_owner" (JVal.s "")),
   ("eo_correlator", JVal.s "true"),
   ("timestamp", JVal.n now)]

/-- A ledger entry, as built by `DemoSimulator.track_sent_alert`
(src/demo_sim.py lines 866-891).  That function always constructs the
record dict with this exact key set, so the record is modelled as a
structure; `resolved_at` is `Option String` because the key is only added
by `resolve_alerts` on a successful resolve. -/
structure TrackedRec where
  host : JVal
  check : JVal
  description : JVal
  service : JVal
  application : JVal
  cluster : JVal
  «instance» : JVal
  location : JVal
  environment : JVal
  cloud_region : JVal
  cloud_provider : JVal
  cloud_account_id : JVal
  assignment_group : JVal
  escalation_group : JVal
  business_criticality : JVal
  known_dependencies : JVal
  business_owner : JVal
  sent_at : String
  based_on_event : JVal
  status : String
  resolved_at : Option String
deriving Repr

/-- Embedding of `DemoSimulator.track_sent_alert` (lines 866-891) minus the
list append and save, which are modelled at the call sites: builds the
tracked record from a sent payload.  `payload.get(k)` has no default, so an
absent key stores Python `None` (`JVal.null`); `sent_at` stands for
`datetime.now(timezone.utc).isoformat()`. -/
def track_sent_alert (payload : List (String × JVal))
    (event : Option (List (String × JVal))) (sent_at : String) : TrackedRec :=
  { host := (pyGet payload "host").getD JVal.null
    check := (pyGet payload "check").getD JVal.null
    description := (pyGet payload "description").getD JVal.null
    service := (pyGet payload "service").getD JVal.null
    application := (pyGet payload "application").getD JVal.null
    cluster := (pyGet payload "cluster").getD JVal.null
    «instance» := (pyGet payload "instance").getD JVal.null
    location := (pyGet payload "location").getD JVal.null
    environment := (pyGet payload "environment").getD JVal.null
    cloud_region := (pyGet payload "cloud_region").getD JVal.null
    cloud_provider := (pyGet payload "cloud_provider").getD JVal.null
    cloud_account_id := (pyGet payload "cloud_account_id").getD JVal.null
    assignment_group := (pyGet payload "assignment_group").getD JVal.null
    escalation_group := (pyGet payload "escalation_group").getD JVal.null
    business_criticality := (pyGet payload "business_criticality").getD JVal.null
    known_dependencies := (pyGet payload "known_dependencies").getD JVal.null
    business_owner := (pyGet payload "business_owner").getD JVal.null
    sent_at := sent_at
    based_on_event :=
      match event with
      | some e => (pyGet e "title").getD (JVal.s "N/A")
      | none => JVal.s "N/A"
    status := "critical"
    resolved_at := none }

/-- Embedding of the `ok_payload` construction inside
`DemoSimulator.resolve_alerts` (lines 996-1009): the resolve-variant
payload built from a tracked record.  Every `alert.get(...)` there hits a
key that `track_sent_alert` always stores, so each lookup is the record
field; the f-string renders the stored description with Python `str()`
(`pyStr`).  `now` stands for the fresh `int(time.time())`. -/
def build_ok_payload (alert : TrackedRec) (now : Int) : List (String × JVal) :=
  [("status", JVal.s "ok"),
   ("host", alert.host),
   ("check", alert.check),
   ("description", JVal.s ("Resolved: " ++ pyStr alert.description)),
   ("service", alert.service),
   ("application", alert.application),
   ("cluster", alert.cluster),
   ("instance", alert.«instance»),
   ("location", alert.location),
   ("environment", alert.environment),
   ("eo_correlator", JVal.s "true"),
   ("timestamp", JVal.n now)]

/-- The in-place mutation `alert["status"] = "ok"; alert["resolved_at"] = ...`
performed on a tracked record inside `resolve_alerts` (lines 1014-1015) on a
successful resolve delivery. -/
def resolveRecord (r : TrackedRec) (iso : String) : TrackedRec :=
  { r with status := "ok", resolved_at := some iso }

/-- In-place mutation of the record at list index `j` (the ledger list holds
the record objects; mutating one leaves the list structure and all other
entries untouched). -/
def updateAt : List TrackedRec → Nat → (TrackedRec → TrackedRec) → List TrackedRec
  | [], _, _ => []
  | r :: rs, 0, f => f r :: rs
  | r :: rs, j + 1, f => r :: updateAt rs j f

/-- Indices (into the ledger list) of the active records, in order, with a
running offset: mirrors the `alert_map` built by `show_sent_alerts` (lines
895-949), whose entry `i` (1-based) is the `i`-th record with
`status != "ok"`. -/
def activeIdxAux : List TrackedRec → Nat → List Nat
  | [], _ => []
  | r :: rs, n =>
    if r.status = "ok" then activeIdxAux rs (n + 1) else n :: activeIdxAux rs (n + 1)

/-- Ledger indices of the records shown as active (selectable) by
`show_sent_alerts`. -/
def activeIdx (alerts : List TrackedRec) : List Nat :=
  activeIdxAux alerts 0

/-- The `to_resolve` selection of `resolve_alerts` (lines 957-978), as ledger
indices: with `auto_all` every active record; otherwise the user's
(1-based, possibly invalid or duplicated) numbers mapped through the active
map, numbers not in the map dropped. -/
def toResolveOf (alerts : List TrackedRec) (selection : List Int)
    (auto_all : Bool) : List Nat :=
  if auto_all then activeIdx alerts
  else selection.filterMap fun i =>
    if 1 ≤ i then (activeIdx alerts)[(i - 1).toNat]? else none

/-- The per-record loop of `resolve_alerts` (lines 993-1019): for each
selected ledger index paired with its delivery outcome, a successful send
mutates that record via `resolveRecord`; a failed send leaves it untouched. -/
def resolveLoop (alerts : List TrackedRec) (work : List (Nat × Bool))
    (iso : String) : List TrackedRec :=
  match work with
  | [] => alerts
  | (j, true) :: rest => resolveLoop (updateAt alerts j (fun r => resolveRecord r iso)) rest iso
  | (_, false) :: rest => resolveLoop alerts rest iso

/-- Embedding of `DemoSimulator.resolve_alerts` (lines 951-1024).  Inputs
stand for the non-deterministic environment: `selection` the user's parsed
numbers (ignored when `auto_all`), `confirmed` the Confirm prompt answer
(only consulted when not `auto_all`), `outcomes` the per-send delivery
results (`send_to_bigpanda` true/false), `iso` the resolution timestamp.
Returns the updated ledger list together with the number of
`_save_sent_alerts` calls performed: the early-return paths (no active
alerts, empty/cancelled selection) never save; once the loop runs, the
document is saved exactly once after the whole batch. -/
def resolve_alerts (alerts : List TrackedRec) (selection : List Int)
    (auto_all : Bool) (confirmed : Bool) (outcomes : List Bool)
    (iso : String) : List TrackedRec × Nat :=
  let toR := toResolveOf alerts selection auto_all
  if toR = [] then (alerts, 0)
  else if auto_all = false ∧ confirmed = false then (alerts, 0)
  else (resolveLoop alerts (toR.zip outcomes) iso, 1)

/-- One ledger-affecting operation of the simulator, as issued by the menu
loop: a successful tracked send (`track_sent_alert` append + save), a
resolve pass, or the read-only listing (`show_sent_alerts`). -/
inductive LedgerOp where
  | track (payload : List (String × JVal)) (event : Option (List (String × JVal))) (sentAt : String)
  | resolve (selection : List Int) (auto_all : Bool) (confirmed : Bool)
      (outcomes : List Bool) (iso : String)
  | view

/-- Effect of one operation on the in-memory tracked-alert list:
`track_sent_alert` appends the new record (line 890); `resolve_alerts`
mutates as above; viewing changes nothing. -/
def applyOp (alerts : List TrackedRec) : LedgerOp → List TrackedRec
  | .track p ev t => alerts ++ [track_sent_alert p ev t]
  | .resolve sel auto conf outs iso => (resolve_alerts alerts sel auto conf outs iso).1
  | .view => alerts

/-- The tracked-alert list after a run of operations, starting from the
empty ledger. -/
def runOps (ops : List LedgerOp) : List TrackedRec :=
  ops.foldl applyOp []

/-- Status of the ledger record at index `i`, if any. -/
def statusAt (alerts : List TrackedRec) (i : Nat) : Option String :=
  (alerts[i]?).map TrackedRec.status

/-- Ledger indices whose resolve delivery succeeded in a resolve pass: the
selected indices paired positionally with the delivery outcomes, keeping
the successful ones. -/
def successIdx (alerts : List TrackedRec) (selection : List Int)
    (auto_all : Bool) (outcomes : List Bool) : List Nat :=
  ((toResolveOf alerts selection auto_all).zip outcomes).filterMap
    fun p => if p.2 then some p.1 else none

/-- An external disruption event, restricted to the fields the event filter
in `fetch_events` reads.  `start_time` is the raw ISO-8601 string
(`e.get("start_time")`), `none` when the key is absent. -/
structure ExternalEvent where
  alert_type : String
  severity : String
  title : String
  is_active : Bool
  start_time : Option String
deriving Repr, DecidableEq

/-- The per-event predicate of the filter loop in
`DemoSimulator.fetch_events` (lines 399-429): keep only active events, and
among those with a truthy (non-empty) `start_time`, drop the ones whose
parsed time is in the future or before the cutoff; a `ValueError` from
parsing (modelled as `parseIso _ = none`) keeps the event.  `parseIso`
stands for `datetime.fromisoformat` composed with the `Z → +00:00`
replacement, yielding epoch seconds; `now` is `datetime.now(timezone.utc)`
and `cutoff = now - timedelta(hours=MAX_EVENT_AGE_HOURS)`. -/
def keepEvent (parseIso : String → Option Int) (now cutoff : Int)
    (e : ExternalEvent) : Bool :=
  e.is_active &&
    (match e.start_time with
     | none => true
     | some str =>
       if str = "" then true
       else
         match parseIso str with
         | none => true
         | some t => if now < t then false else if t < cutoff then false else true)

/-- The filtering stage of `DemoSimulator.fetch_events`: the sub-list of
fetched events surviving the loop above, in order. -/
def fetch_events_filter (parseIso : String → Option Int) (now : Int)
    (max_age_hours : Int) (events : List ExternalEvent) : List ExternalEvent :=
  events.filter (keepEvent parseIso now (now - max_age_hours * 3600))

/-- The three credentials read by `_load_config` and checked by
`_validate_config`. -/
structure Config where
  bp_org_token : String
  bp_app_key : String
  openai_api_key : String

/-- Condition of the loop body of `DemoSimulator._validate_config` (lines
259-271): `not value or any(value.startswith(p) for p in placeholders)`,
with `placeholders = ("your_", "sk-your", "BPUAK-your")`. -/
def credMissing (value : String) : Bool :=
  (value == "") || ["your_", "sk-your", "BPUAK-your"].any (fun p => value.startsWith p)

/-- Embedding of `DemoSimulator._validate_config` (lines 259-271), the loop
over the three (name, value) pairs unrolled in order: a variable is
reported missing when its value is empty or starts with one of the
placeholder markers. -/
def _validate_config (c : Config) : List String :=
  (if credMissing c.bp_org_token then ["BIGPANDA_ORG_ACCESS_TOKEN"] else []) ++
    (if credMissing c.bp_app_key then ["BIGPANDA_APP_KEY"] else []) ++
      (if credMissing c.openai_api_key then ["OPENAI_API_KEY"] else [])

/-- Observable effects of `DemoSimulator.run`, at the granularity the
configuration gate needs: the banner, the configuration help screen, and
the operations of the post-gate body (event fetch, alert generation,
BigPanda delivery, any ledger read/write/resolve, OIM setup). -/
inductive RunEffect where
  | banner
  | config_help (missing : List String)
  | fetch_op
  | generation_op
  | delivery_op
  | ledger_op
  | oim_config_op
deriving Repr, DecidableEq

/-- Embedding of the gate at the top of `DemoSimulator.run` (lines
1161-1169): show the banner, validate, and on any missing credential show
the guidance and return — the body (quick-resolve, OIM setup or the menu
loop, abstracted as the effect list `body`) runs only when nothing is
missing. -/
def run_effects (c : Config) (body : List RunEffect) : List RunEffect :=
  RunEffect.banner ::
    (match _validate_config c with
     | [] => body
     | missing => [RunEffect.config_help missing])

/-- State found in the ledger file `.demo_sent_alerts.json` at startup, as
distinguished by `_load_sent_alerts` (lines 319-327): the file may be
missing, raise `IOError` on read, hold malformed JSON
(`json.JSONDecodeError`), or hold a valid document (decoding of a valid
JSON list into records is not further modelled — no claim depends on it). -/
inductive LedgerFile where
  | missing
  | readError
  | malformedJson (raw : String)
  | validDoc (alerts : List TrackedRec)

/-- Embedding of `DemoSimulator._load_sent_alerts`: `self.sent_alerts`
starts as `[]` in `__init__`; a missing file leaves it untouched, and both
caught exception classes reset it to `[]`.  The function is total: no
error path escapes to the caller. -/
def _load_sent_alerts : LedgerFile → List TrackedRec
  | .missing => []
  | .readError => []
  | .malformedJson _ => []
  | .validDoc alerts => alerts

/-- Tail of `DemoSimulator.generate_and_send_flow` (lines 1151-1157) after
the payload is built and confirmed: send, and only on success track the
sent alert (append + one `_save_sent_alerts` inside `track_sent_alert`);
on failure nothing is appended and nothing is written.  Returns the
tracked-alert list and the number of saves. -/
def generate_and_send_tail (alerts : List TrackedRec)
    (payload : List (String × JVal)) (event : Option (List (String × JVal)))
    (sentAt : String) (send_success : Bool) : List TrackedRec × Nat :=
  if send_success then (alerts ++ [track_sent_alert payload event sentAt], 1)
  else (alerts, 0)

example : pyGet (build_bigpanda_payload [] "critical" 7) "host" = some (JVal.s "unknown-host") := rfl
example : (track_sent_alert (build_bigpanda_payload [] "critical" 7) none "t").status = "critical" := rfl
example :
    statusAt (runOps [LedgerOp.track [] none "t0",
      LedgerOp.resolve [] true true [true] "i0"]) 0 = some "ok" := rfl

/-! ### Helper lemmas -/

/-- Lookup misses exactly the keys outside the association list's key set. -/
theorem pyGet_eq_none_iff (l : List (String × JVal)) (k : String) :
    pyGet l k = none ↔ k ∉ l.map Prod.fst := by
  induction l with
  | nil => simp [pyGet]
  | cons hd tl ih =>
    obtain ⟨k', v⟩ := hd
    by_cases hk : k' = k
    · subst hk
      simp [pyGet]
    · rw [List.map_cons]
      simp only [pyGet, if_neg hk, ih, List.mem_cons]
      constructor
      · intro h hmem
        rcases hmem with h1 | h2
        · exact hk h1.symm
        · exact h h2
      · intro h hmem
        exact h (Or.inr hmem)

theorem updateAt_getElem? (l : List TrackedRec) (j : Nat) (f : TrackedRec → TrackedRec)
    (i : Nat) : (updateAt l j f)[i]? = if i = j then (l[i]?).map f else l[i]? := by
  induction l generalizing i j with
  | nil => simp [updateAt]
  | cons hd tl ih =>
    cases j with
    | zero =>
      cases i with
      | zero => simp [updateAt]
      | succ i => simp [updateAt]
    | succ j =>
      cases i with
      | zero => simp [updateAt]
      | succ i => simpa [updateAt] using ih j i

theorem resolveRecord_idem (r : TrackedRec) (iso : String) :
    resolveRecord (resolveRecord r iso) iso = resolveRecord r iso := rfl

theorem resolveLoop_getElem? (work : List (Nat × Bool)) (alerts : List TrackedRec)
    (iso : String) (i : Nat) :
    (resolveLoop alerts work iso)[i]? =
      if work.any (fun p => p.1 == i && p.2) then
        (alerts[i]?).map (fun r => resolveRecord r iso)
      else alerts[i]? := by
  induction work generalizing alerts with
  | nil => simp [resolveLoop]
  | cons hd rest ih =>
    obtain ⟨j, b⟩ := hd
    cases b with
    | false => simpa [resolveLoop] using ih alerts
    | true =>
      have hstep : resolveLoop alerts ((j, true) :: rest) iso
          = resolveLoop (updateAt alerts j (fun r => resolveRecord r iso)) rest iso := rfl
      rw [hstep, ih, updateAt_getElem?]
      by_cases hij : i = j
      · subst hij
        have hgg : ∀ o : Option TrackedRec,
            Option.map (fun r => resolveRecord r iso)
                (Option.map (fun r => resolveRecord r iso) o)
              = Option.map (fun r => resolveRecord r iso) o := by
          intro o
          cases o <;> simp [resolveRecord_idem]
        simp only [List.any_cons, beq_self_eq_true, Bool.true_and, Bool.true_or,
          if_true, if_pos (rfl : i = i), hgg]
        by_cases hrest : rest.any (fun p => p.1 == i && p.2) = true
        · rw [if_pos hrest]
        · rw [if_neg hrest]
      · have hji : (j == i) = false := beq_eq_false_iff_ne.mpr fun h => hij h.symm
        simp [List.any_cons, hji, hij]

theorem activeIdxAux_mem (alerts : List TrackedRec) (n i : Nat) :
    i ∈ activeIdxAux alerts n ↔
      ∃ j r, i = n + j ∧ alerts[j]? = some r ∧ r.status ≠ "ok" := by
  induction alerts generalizing n with
  | nil => simp [activeIdxAux]
  | cons hd tl ih =>
    by_cases hs : hd.status = "ok"
    · rw [activeIdxAux, if_pos hs, ih]
      constructor
      · rintro ⟨j, r, hij, hget, hr⟩
        refine ⟨j + 1, r, by omega, by simpa using hget, hr⟩
      · rintro ⟨j, r, hij, hget, hr⟩
        cases j with
        | zero =>
          simp only [List.getElem?_cons_zero, Option.some.injEq] at hget
          exact absurd (hget ▸ hs) hr
        | succ j => exact ⟨j, r, by omega, by simpa using hget, hr⟩
    · rw [activeIdxAux, if_neg hs]
      simp only [List.mem_cons, ih]
      constructor
      · rintro (rfl | ⟨j, r, hij, hget, hr⟩)
        · exact ⟨0, hd, by omega, by simp, hs⟩
        · exact ⟨j + 1, r, by omega, by simpa using hget, hr⟩
      · rintro ⟨j, r, hij, hget, hr⟩
        cases j with
        | zero =>
          simp only [List.getElem?_cons_zero, Option.some.injEq] at hget
          exact Or.inl (by omega)
        | succ j => exact Or.inr ⟨j, r, by omega, by simpa using hget, hr⟩

theorem activeIdx_mem (alerts : List TrackedRec) (i : Nat) :
    i ∈ activeIdx alerts ↔ ∃ r, alerts[i]? = some r ∧ r.status ≠ "ok" := by
  rw [activeIdx, activeIdxAux_mem]
  constructor
  · rintro ⟨j, r, hij, hget, hr⟩
    have hj : i = j := by omega
    subst hj
    exact ⟨r, hget, hr⟩
  · rintro ⟨r, hget, hr⟩
    exact ⟨i, r, by omega, hget, hr⟩

theorem toResolveOf_subset_active (alerts : List TrackedRec) (sel : List Int)
    (auto : Bool) (j : Nat) (hj : j ∈ toResolveOf alerts sel auto) :
    j ∈ activeIdx alerts := by
  unfold toResolveOf at hj
  cases auto with
  | true => simpa using hj
  | false =>
    simp only [Bool.false_eq_true, if_false, List.mem_filterMap] at hj
    obtain ⟨i, _, hi⟩ := hj
    by_cases h1 : 1 ≤ i
    · rw [if_pos h1] at hi
      exact List.getElem?_mem hi
    · rw [if_neg h1] at hi
      cases hi

theorem mem_zip_iff_getElem? (l₁ : List Nat) (l₂ : List Bool) (a : Nat) (b : Bool) :
    (a, b) ∈ l₁.zip l₂ ↔ ∃ i : Nat, l₁[i]? = some a ∧ l₂[i]? = some b := by
  rw [List.mem_iff_getElem?]
  constructor
  · rintro ⟨i, hi⟩
    exact ⟨i, (List.getElem?_zip_eq_some.mp hi).1, (List.getElem?_zip_eq_some.mp hi).2⟩
  · rintro ⟨i, h₁, h₂⟩
    exact ⟨i, List.getElem?_zip_eq_some.mpr ⟨h₁, h₂⟩⟩

theorem nodup_getElem?_inj {l : List Nat} (hl : l.Nodup) {i j a : Nat}
    (hi : l[i]? = some a) (hj : l[j]? = some a) : i = j := by
  obtain ⟨hi', hia⟩ := List.getElem?_eq_some_iff.mp hi
  obtain ⟨hj', hja⟩ := List.getElem?_eq_some_iff.mp hj
  exact (List.Nodup.getElem_inj_iff hl).mp (hia.trans hja.symm)

/-! ### Claims -/

/-- C1 (confirmed): for every alert tracked after a successful open send,
the resolve-variant payload's `host`, `check`, `service`, `application`,
`cluster`, `instance`, `environment` and `location` fields exactly equal
the values of the open payload: tracking followed by building the resolve
payload reproduces the open payload's values for these fields. -/
theorem claim_C1_resolve_field_fidelity (g : List (String × JVal)) (t : Int)
    (event : Option (List (String × JVal))) (sentAt : String) (t' : Int) (f : String)
    (hf : f ∈ ["host", "check", "service", "application", "cluster", "instance",
      "environment", "location"]) :
    pyGet (build_ok_payload
        (track_sent_alert (build_bigpanda_payload g "critical" t) event sentAt) t') f
      = pyGet (build_bigpanda_payload g "critical" t) f := by
  fin_cases hf <;> rfl

/-- Witness for C1 at a concrete record and the `host` field. -/
theorem claim_C1_witness :
    pyGet (build_ok_payload
        (track_sent_alert (build_bigpanda_payload [] "critical" 0) none "t") 5) "host"
      = pyGet (build_bigpanda_payload [] "critical" 0) "host" :=
  claim_C1_resolve_field_fidelity [] 0 none "t" 5 "host" (by simp)

/-- C2 (confirmed): for a tracked record (whose captured description is the
string `d`), the resolve-variant payload consists of exactly the keys
`status, host, check, description, service, application, cluster, instance,
location, environment, eo_correlator, timestamp` — none of the cloud, ITSM
or `known_dependencies` fields — with `status = "ok"`, the identity fields
equal to the record's snapshot, `description = "Resolved: " ++ d`,
`eo_correlator = "true"` and the fresh timestamp. -/
theorem claim_C2_resolve_payload_shape (r : TrackedRec) (t : Int) (d : String)
    (hd : r.description = JVal.s d) :
    (build_ok_payload r t).map Prod.fst
        = ["status", "host", "check", "description", "service", "application",
           "cluster", "instance", "location", "environment", "eo_correlator", "timestamp"]
      ∧ pyGet (build_ok_payload r t) "status" = some (JVal.s "ok")
      ∧ pyGet (build_ok_payload r t) "host" = some r.host
      ∧ pyGet (build_ok_payload r t) "check" = some r.check
      ∧ pyGet (build_ok_payload r t) "description" = some (JVal.s ("Resolved: " ++ d))
      ∧ pyGet (build_ok_payload r t) "service" = some r.service
      ∧ pyGet (build_ok_payload r t) "application" = some r.application
      ∧ pyGet (build_ok_payload r t) "cluster" = some r.cluster
      ∧ pyGet (build_ok_payload r t) "instance" = some r.«instance»
      ∧ pyGet (build_ok_payload r t) "location" = some r.location
      ∧ pyGet (build_ok_payload r t) "environment" = some r.environment
      ∧ pyGet (build_ok_payload r t) "eo_correlator" = some (JVal.s "true")
      ∧ pyGet (build_ok_payload r t) "timestamp" = some (JVal.n t) := by
  refine ⟨rfl, rfl, rfl, rfl, ?_, rfl, rfl, rfl, rfl, rfl, rfl, rfl, rfl⟩
  show some (JVal.s ("Resolved: " ++ pyStr r.description))
      = some (JVal.s ("Resolved: " ++ d))
  rw [hd]
  rfl

/-- Witness for C2 at the record tracked from the all-defaults payload. -/
theorem claim_C2_witness :
    pyGet (build_ok_payload
        (track_sent_alert (build_bigpanda_payload [] "critical" 0) none "t") 9) "description"
      = some (JVal.s ("Resolved: " ++ "No description")) :=
  (claim_C2_resolve_payload_shape
    (track_sent_alert (build_bigpanda_payload [] "critical" 0) none "t") 9
    "No description" rfl).2.2.2.2.1

/-- C4 counterexample: a generated alert whose `host` is present but of the
wrong shape (JSON `null`) is passed through unchanged — the named default
`"unknown-host"` is not applied, so defaults are not applied for
wrong-shape fields. -/
theorem claim_C4_counterexample :
    pyGet (build_bigpanda_payload [("host", JVal.null)] "critical" 0) "host"
        = some JVal.null
      ∧ JVal.null ≠ JVal.s "unknown-host" :=
  ⟨rfl, fun h => nomatch h⟩

/-- C4 (corrected): for every partial generated-alert record — mixed
presence and absence allowed — and for each field with its named default
(`host → "unknown-host"`, `check → "unknown_check"`, `description → "No
description"`, `environment → "production"`, every remaining string field
→ `""`), the open-variant payload builder applies the default exactly when
that field is absent, and passes a present value through unchanged
whatever its shape; `known_dependencies` defaults to the empty sequence
when absent, is wrapped into a one-element sequence when given as a single
string, and any other present value is passed through unchanged. -/
theorem claim_C4_defaults_on_absent (g : List (String × JVal)) (st : String)
    (t : Int) (f : String) (d : JVal)
    (hf : (f, d) ∈ [("host", JVal.s "unknown-host"), ("check", JVal.s "unknown_check"),
      ("description", JVal.s "No description"), ("service", JVal.s ""),
      ("application", JVal.s ""), ("cluster", JVal.s ""), ("instance", JVal.s ""),
      ("location", JVal.s ""), ("environment", JVal.s "production"),
      ("cloud_region", JVal.s ""), ("cloud_provider", JVal.s ""),
      ("cloud_account_id", JVal.s ""), ("assignment_group", JVal.s ""),
      ("escalation_group", JVal.s ""), ("business_criticality", JVal.s ""),
      ("business_owner", JVal.s "")]) :
    (pyGet g f = none → pyGet (build_bigpanda_payload g st t) f = some d)
      ∧ (∀ v, pyGet g f = some v → pyGet (build_bigpanda_payload g st t) f = some v)
      ∧ (pyGet g "known_dependencies" = none →
          pyGet (build_bigpanda_payload g st t) "known_dependencies"
            = some (JVal.arr []))
      ∧ (∀ s, pyGet g "known_dependencies" = some (JVal.s s) →
          pyGet (build_bigpanda_payload g st t) "known_dependencies"
            = some (JVal.arr [JVal.s s]))
      ∧ (∀ v, pyGet g "known_dependencies" = some v → (∀ s, v ≠ JVal.s s) →
          pyGet (build_bigpanda_payload g st t) "known_dependencies" = some v) := by
  have hdeps : pyGet (build_bigpanda_payload g st t) "known_dependencies"
      = some (match pyGet g "known_dependencies" with
              | none => JVal.arr []
              | some (JVal.s v) => JVal.arr [JVal.s v]
              | some v => v) := rfl
  refine ⟨?_, ?_, ?_, ?_, ?_⟩
  · intro h
    fin_cases hf <;> simp [build_bigpanda_payload, pyGetD, pyGet, h]
  · intro v h
    fin_cases hf <;> simp [build_bigpanda_payload, pyGetD, pyGet, h]
  · intro h
    rw [hdeps, h]
  · intro s h
    rw [hdeps, h]
  · intro v h hns
    rw [hdeps, h]
    cases v with
    | s sv => exact absurd rfl (hns sv)
    | n nv => rfl
    | b bv => rfl
    | null => rfl
    | arr vs => rfl

/-- Witness for C4's amended statement, exercising every hypothesis on
concrete mixed records: an absent `host` is defaulted, a present
wrong-shape `host` (`null`) passes through unchanged, an absent
`known_dependencies` becomes the empty sequence, a single-string one is
wrapped, and a present list-shaped one passes through unchanged. -/
theorem claim_C4_witness :
    pyGet (build_bigpanda_payload [] "critical" 0) "host" = some (JVal.s "unknown-host")
      ∧ pyGet (build_bigpanda_payload [("host", JVal.null)] "critical" 0) "host"
          = some JVal.null
      ∧ pyGet (build_bigpanda_payload [] "critical" 0) "known_dependencies"
          = some (JVal.arr [])
      ∧ pyGet (build_bigpanda_payload [("known_dependencies", JVal.s "AWS Cloud")]
          "critical" 0) "known_dependencies" = some (JVal.arr [JVal.s "AWS Cloud"])
      ∧ pyGet (build_bigpanda_payload
            [("known_dependencies", JVal.arr [JVal.s "a", JVal.s "b"])] "critical" 0)
          "known_dependencies" = some (JVal.arr [JVal.s "a", JVal.s "b"]) := by
  have h1 := claim_C4_defaults_on_absent [] "critical" 0 "host"
    (JVal.s "unknown-host") (List.mem_cons_self _ _)
  have h2 := claim_C4_defaults_on_absent [("host", JVal.null)] "critical" 0 "host"
    (JVal.s "unknown-host") (List.mem_cons_self _ _)
  have h3 := claim_C4_defaults_on_absent [("known_dependencies", JVal.s "AWS Cloud")]
    "critical" 0 "host" (JVal.s "unknown-host") (List.mem_cons_self _ _)
  have h4 := claim_C4_defaults_on_absent
    [("known_dependencies", JVal.arr [JVal.s "a", JVal.s "b"])] "critical" 0 "host"
    (JVal.s "unknown-host") (List.mem_cons_self _ _)
  exact ⟨h1.1 rfl, h2.2.1 JVal.null rfl, h1.2.2.1 rfl,
    h3.2.2.2.1 "AWS Cloud" rfl,
    h4.2.2.2.2 (JVal.arr [JVal.s "a", JVal.s "b"]) rfl (fun sv hx => nomatch hx)⟩

/-- C7 (confirmed): on a failed open delivery the drafted alert is
discarded — the tracked list is unchanged and the ledger file is not
written; only on success is a record appended, with `status = "critical"`
and `sent_at` set, followed by exactly one save. -/
theorem claim_C7_open_failure_discards (alerts : List TrackedRec)
    (payload : List (String × JVal)) (event : Option (List (String × JVal)))
    (sentAt : String) (success : Bool) :
    (success = false → generate_and_send_tail alerts payload event sentAt success
        = (alerts, 0))
      ∧ (success = true →
          generate_and_send_tail alerts payload event sentAt success
              = (alerts ++ [track_sent_alert payload event sentAt], 1)
            ∧ (track_sent_alert payload event sentAt).status = "critical"
            ∧ (track_sent_alert payload event sentAt).sent_at = sentAt) := by
  constructor
  · rintro rfl
    rfl
  · rintro rfl
    exact ⟨rfl, rfl, rfl⟩

/-- Witness for C7: both outcomes at a concrete draft over the empty
ledger. -/
theorem claim_C7_witness :
    generate_and_send_tail [] [] none "t" false = ([], 0)
      ∧ generate_and_send_tail [] [] none "t" true
          = ([track_sent_alert [] none "t"], 1) :=
  ⟨(claim_C7_open_failure_discards [] [] none "t" false).1 rfl,
   ((claim_C7_open_failure_discards [] [] none "t" true).2 rfl).1⟩

/-- C8 (confirmed): loading the ledger from a missing file, an unreadable
file, or a file with malformed JSON initializes the tracked-alert list to
the empty sequence; `_load_sent_alerts` is total, so no parse or I/O error
propagates to the caller. -/
theorem claim_C8_load_fail_soft (raw : String) :
    _load_sent_alerts LedgerFile.missing = []
      ∧ _load_sent_alerts LedgerFile.readError = []
      ∧ _load_sent_alerts (LedgerFile.malformedJson raw) = [] :=
  ⟨rfl, rfl, rfl⟩

/-- C10 (confirmed): the open-variant payload has exactly the twenty fixed
keys, whatever the generated record contains; every key outside that set is
absent from the payload, so extra input keys are dropped. -/
theorem claim_C10_fixed_payload_keys (g : List (String × JVal)) (status : String)
    (t : Int) :
    (build_bigpanda_payload g status t).map Prod.fst
        = ["status", "host", "check", "description", "service", "application", "cluster",
           "instance", "location", "environment", "cloud_region", "cloud_provider",
           "cloud_account_id", "assignment_group", "escalation_group",
           "business_criticality", "known_dependencies", "business_owner",
           "eo_correlator", "timestamp"]
      ∧ ∀ k : String,
          pyGet (build_bigpanda_payload g status t) k = none ↔
            k ∉ ["status", "host", "check", "description", "service", "application",
              "cluster", "instance", "location", "environment", "cloud_region",
              "cloud_provider", "cloud_account_id", "assignment_group",
              "escalation_group", "business_criticality", "known_dependencies",
              "business_owner", "eo_correlator", "timestamp"] := by
  have hkeys : (build_bigpanda_payload g status t).map Prod.fst
      = ["status", "host", "check", "description", "service", "application", "cluster",
         "instance", "location", "environment", "cloud_region", "cloud_provider",
         "cloud_account_id", "assignment_group", "escalation_group",
         "business_criticality", "known_dependencies", "business_owner",
         "eo_correlator", "timestamp"] := rfl
  refine ⟨hkeys, fun k => ?_⟩
  rw [pyGet_eq_none_iff, hkeys]

/-- Characterization of the per-event filter predicate, assuming only that
the timestamp parser rejects the empty string (as `datetime.fromisoformat`
does). -/
theorem keepEvent_eq_true_iff (parseIso : String → Option Int) (now cutoff : Int)
    (e : ExternalEvent) (hparse_empty : parseIso "" = none) :
    keepEvent parseIso now cutoff e = true ↔
      e.is_active = true ∧
        (e.start_time = none
          ∨ (∃ str, e.start_time = some str ∧ parseIso str = none)
          ∨ (∃ str t, e.start_time = some str ∧ parseIso str = some t ∧
              cutoff ≤ t ∧ t ≤ now)) := by
  unfold keepEvent
  rcases hst : e.start_time with _ | str
  · simp [hst]
  · by_cases hstr : str = ""
    · subst hstr
      simp [hst, hparse_empty]
    · rcases hp : parseIso str with _ | t
      · simp [hst, hstr, hp]
      · by_cases h1 : now < t
        · simp only [hst, if_neg hstr, hp, if_pos h1, Bool.and_false]
          simp [hp]
          omega
        · by_cases h2 : t < cutoff
          · simp only [hst, if_neg hstr, hp, if_neg h1, if_pos h2, Bool.and_false]
            simp [hp]
            omega
          · simp only [hst, if_neg hstr, hp, if_neg h1, if_neg h2, Bool.and_true]
            simp [hp]
            omega

/-- C3 (confirmed): the event filter keeps an event exactly when it is
active and either has no (or an unparseable) `start_time` — fail-open — or
its parsed `start_time` lies in the window `[now - max_age_hours, now]`;
inactive, future-dated and stale events are excluded, and an empty input
yields an empty output. -/
theorem claim_C3_event_filter (parseIso : String → Option Int)
    (now max_age_hours : Int) (events : List ExternalEvent) (e : ExternalEvent)
    (hparse_empty : parseIso "" = none) :
    (e ∈ fetch_events_filter parseIso now max_age_hours events ↔
        e ∈ events ∧ e.is_active = true ∧
          (e.start_time = none
            ∨ (∃ str, e.start_time = some str ∧ parseIso str = none)
            ∨ (∃ str t, e.start_time = some str ∧ parseIso str = some t ∧
                now - max_age_hours * 3600 ≤ t ∧ t ≤ now)))
      ∧ fetch_events_filter parseIso now max_age_hours [] = [] := by
  constructor
  · rw [fetch_events_filter, List.mem_filter,
      keepEvent_eq_true_iff parseIso now (now - max_age_hours * 3600) e hparse_empty]
  · rfl

/-- Witness for C3: with a parser rejecting everything, an active event
without a start time passes the filter. -/
theorem claim_C3_witness :
    ({ alert_type := "power_outage", severity := "critical", title := "Dallas outage",
       is_active := true, start_time := none } : ExternalEvent)
      ∈ fetch_events_filter (fun _ => none) 0 15
          [{ alert_type := "power_outage", severity := "critical",
             title := "Dallas outage", is_active := true, start_time := none }] :=
  ((claim_C3_event_filter (fun _ => none) 0 15 _ _ rfl).1).mpr
    ⟨List.mem_singleton.mpr rfl, rfl, Or.inl rfl⟩

/-- Helper: membership in a one-element-or-empty conditional list. -/
theorem mem_if_singleton {b : Bool} {x name : String} :
    name ∈ (if b then [x] else ([] : List String)) ↔ b = true ∧ name = x := by
  cases b <;> simp

/-- Helper: the missing-credential test, spelled out. -/
theorem credMissing_iff (v : String) :
    credMissing v = true ↔
      v = "" ∨ v.startsWith "your_" = true ∨ v.startsWith "sk-your" = true
        ∨ v.startsWith "BPUAK-your" = true := by
  simp [credMissing]

/-- C9 (confirmed): startup validation reports a credential as missing
exactly when its value is empty or starts with one of the placeholder
markers `your_`, `sk-your`, `BPUAK-your`; and whenever some credential is
missing, `run` shows only the banner and the configuration guidance — no
fetch, generation, delivery, ledger or OIM-configuration operation runs. -/
theorem claim_C9_config_gate (c : Config) (body : List RunEffect) :
    (∀ name : String,
        name ∈ _validate_config c ↔
          ((name = "BIGPANDA_ORG_ACCESS_TOKEN" ∧
              (c.bp_org_token = "" ∨ c.bp_org_token.startsWith "your_" = true
                ∨ c.bp_org_token.startsWith "sk-your" = true
                ∨ c.bp_org_token.startsWith "BPUAK-your" = true))
            ∨ (name = "BIGPANDA_APP_KEY" ∧
                (c.bp_app_key = "" ∨ c.bp_app_key.startsWith "your_" = true
                  ∨ c.bp_app_key.startsWith "sk-your" = true
                  ∨ c.bp_app_key.startsWith "BPUAK-your" = true))
            ∨ (name = "OPENAI_API_KEY" ∧
                (c.openai_api_key = "" ∨ c.openai_api_key.startsWith "your_" = true
                  ∨ c.openai_api_key.startsWith "sk-your" = true
                  ∨ c.openai_api_key.startsWith "BPUAK-your" = true))))
      ∧ (_validate_config c ≠ [] →
          run_effects c body
            = [RunEffect.banner, RunEffect.config_help (_validate_config c)]) := by
  constructor
  · intro name
    rw [_validate_config]
    simp only [List.mem_append, mem_if_singleton]
    simp only [credMissing_iff]
    rw [or_assoc]
    constructor
    · rintro (⟨hb, hn⟩ | ⟨hb, hn⟩ | ⟨hb, hn⟩)
      · exact Or.inl ⟨hn, hb⟩
      · exact Or.inr (Or.inl ⟨hn, hb⟩)
      · exact Or.inr (Or.inr ⟨hn, hb⟩)
    · rintro (⟨hn, hb⟩ | ⟨hn, hb⟩ | ⟨hn, hb⟩)
      · exact Or.inl ⟨hb, hn⟩
      · exact Or.inr (Or.inl ⟨hb, hn⟩)
      · exact Or.inr (Or.inr ⟨hb, hn⟩)
  · intro hne
    rw [run_effects]
    rcases hv : _validate_config c with _ | ⟨a, l⟩
    · exact absurd hv hne
    · rfl

/-- Helper: the two possible results of a resolve pass — an untouched
ledger (early return) or the per-record loop over the selection. -/
theorem resolve_alerts_fst_cases (alerts : List TrackedRec) (sel : List Int)
    (auto conf : Bool) (outs : List Bool) (iso : String) :
    (resolve_alerts alerts sel auto conf outs iso).1 = alerts
      ∨ (resolve_alerts alerts sel auto conf outs iso).1
          = resolveLoop alerts ((toResolveOf alerts sel auto).zip outs) iso := by
  simp only [resolve_alerts]
  split
  · exact Or.inl rfl
  · split
    · exact Or.inl rfl
    · exact Or.inr rfl

/-- Helper: every record after a resolve loop is an old record or a
resolved old record. -/
theorem resolveLoop_mem_cases (alerts : List TrackedRec) (work : List (Nat × Bool))
    (iso : String) (r' : TrackedRec) (h : r' ∈ resolveLoop alerts work iso) :
    (∃ r, r ∈ alerts ∧ r' = resolveRecord r iso) ∨ r' ∈ alerts := by
  obtain ⟨i, hi⟩ := List.mem_iff_getElem?.mp h
  rw [resolveLoop_getElem?] at hi
  by_cases hany : (work.any fun p => p.1 == i && p.2) = true
  · rw [if_pos hany] at hi
    rcases halerts : alerts[i]? with _ | r
    · rw [halerts] at hi
      cases hi
    · rw [halerts] at hi
      refine Or.inl ⟨r, List.getElem?_mem halerts, ?_⟩
      simpa using hi.symm
  · rw [if_neg hany] at hi
    exact Or.inr (List.getElem?_mem hi)

/-- Helper: a single operation preserves the status invariant
`status ∈ {critical, ok}`. -/
theorem applyOp_status_wf (alerts : List TrackedRec) (op : LedgerOp)
    (h : ∀ r ∈ alerts, r.status = "critical" ∨ r.status = "ok") :
    ∀ r ∈ applyOp alerts op, r.status = "critical" ∨ r.status = "ok" := by
  cases op with
  | track p ev t =>
    intro r hr
    rcases List.mem_append.mp hr with hr | hr
    · exact h r hr
    · rw [List.mem_singleton.mp hr]
      exact Or.inl rfl
  | view => exact h
  | resolve sel auto conf outs iso =>
    intro r hr
    rcases resolve_alerts_fst_cases alerts sel auto conf outs iso with hc | hc
    · exact h r (by rwa [applyOp, hc] at hr)
    · rw [applyOp, hc] at hr
      rcases resolveLoop_mem_cases alerts _ iso r hr with ⟨r₀, _, rfl⟩ | hr'
      · exact Or.inr rfl
      · exact h r hr'

/-- Helper: the status invariant holds for every run from the empty
ledger. -/
theorem runOps_status_wf (ops : List LedgerOp) :
    ∀ r ∈ runOps ops, r.status = "critical" ∨ r.status = "ok" := by
  have haux : ∀ (ops : List LedgerOp) (alerts : List TrackedRec),
      (∀ r ∈ alerts, r.status = "critical" ∨ r.status = "ok") →
        ∀ r ∈ ops.foldl applyOp alerts, r.status = "critical" ∨ r.status = "ok" := by
    intro ops
    induction ops with
    | nil => intro alerts h; exact h
    | cons op rest ih =>
      intro alerts h
      exact ih (applyOp alerts op) (applyOp_status_wf alerts op h)
  exact haux ops [] (by simp)

/-- Helper: a record that reads `ok` is not touched by any later
operation. -/
theorem applyOp_preserves_ok (alerts : List TrackedRec) (op : LedgerOp) (i : Nat)
    (h : statusAt alerts i = some "ok") : statusAt (applyOp alerts op) i = some "ok" := by
  rcases halerts : alerts[i]? with _ | r
  · rw [statusAt, halerts] at h
    cases h
  · have hlen : i < alerts.length := by
      by_contra hge
      rw [List.getElem?_eq_none_iff.mpr (by omega)] at halerts
      cases halerts
    have hst : r.status = "ok" := by
      rw [statusAt, halerts] at h
      simpa using h
    cases op with
    | track p ev t =>
      show statusAt (alerts ++ [track_sent_alert p ev t]) i = some "ok"
      rw [statusAt, List.getElem?_append_left hlen, halerts]
      simp [hst]
    | view => exact h
    | resolve sel auto conf outs iso =>
      rcases resolve_alerts_fst_cases alerts sel auto conf outs iso with hc | hc
      · rwa [applyOp, hc]
      · rw [applyOp, hc, statusAt, resolveLoop_getElem?]
        have hany : (((toResolveOf alerts sel auto).zip outs).any
            fun p => p.1 == i && p.2) = false := by
          by_contra hab
          rw [Bool.not_eq_false, List.any_eq_true] at hab
          obtain ⟨⟨j, b⟩, hmem, hp⟩ := hab
          have hji : j = i := by
            have := (Bool.and_eq_true _ _).mp hp
            exact beq_iff_eq.mp this.1
          subst hji
          have hjR : j ∈ toResolveOf alerts sel auto := (List.of_mem_zip hmem).1
          obtain ⟨r', hr', hst'⟩ :=
            (activeIdx_mem alerts j).mp (toResolveOf_subset_active alerts sel auto j hjR)
          rw [halerts] at hr'
          cases hr'
          exact hst' hst
        rw [hany]
        simp only [Bool.false_eq_true, if_false, halerts]
        simp [hst]

/-- Helper: a status change under one operation pins down everything: the
new status is `ok`, the old one was not, and the operation was a resolve
whose delivery for this record succeeded. -/
theorem applyOp_status_change (alerts : List TrackedRec) (op : LedgerOp) (i : Nat)
    (s s' : String) (hs : statusAt alerts i = some s)
    (hs' : statusAt (applyOp alerts op) i = some s') (hne : s ≠ s') :
    s' = "ok" ∧ s ≠ "ok"
      ∧ ∃ sel auto conf outs iso,
          op = LedgerOp.resolve sel auto conf outs iso
            ∧ i ∈ successIdx alerts sel auto outs := by
  rcases halerts : alerts[i]? with _ | r
  · rw [statusAt, halerts] at hs
    cases hs
  · have hlen : i < alerts.length := by
      by_contra hge
      rw [List.getElem?_eq_none_iff.mpr (by omega)] at halerts
      cases halerts
    have hrs : r.status = s := by
      rw [statusAt, halerts] at hs
      simpa using hs
    cases op with
    | track p ev t =>
      rw [applyOp, statusAt, List.getElem?_append_left hlen, halerts] at hs'
      simp only [Option.map_some', Option.some.injEq] at hs'
      exact absurd (hrs ▸ hs') hne
    | view =>
      rw [applyOp, statusAt, halerts] at hs'
      simp only [Option.map_some', Option.some.injEq] at hs'
      exact absurd (hrs ▸ hs') hne
    | resolve sel auto conf outs iso =>
      rcases resolve_alerts_fst_cases alerts sel auto conf outs iso with hc | hc
      · rw [applyOp, hc, statusAt, halerts] at hs'
        simp only [Option.map_some', Option.some.injEq] at hs'
        exact absurd (hrs ▸ hs') hne
      · rw [applyOp, hc, statusAt, resolveLoop_getElem?] at hs'
        by_cases hany : (((toResolveOf alerts sel auto).zip outs).any
            fun p => p.1 == i && p.2) = true
        · rw [if_pos hany, halerts] at hs'
          simp only [Option.map_some', Option.some.injEq] at hs'
          have hok : s' = "ok" := hs'.symm.trans rfl
          obtain ⟨⟨j, b⟩, hmem, hp⟩ := List.any_eq_true.mp hany
          obtain ⟨hji, hb⟩ := (Bool.and_eq_true _ _).mp hp
          have hji' : j = i := beq_iff_eq.mp hji
          subst hji'
          subst hb
          refine ⟨hok, fun habs => hne (by rw [habs, hok]), sel, auto, conf, outs, iso,
            rfl, ?_⟩
          exact List.mem_filterMap.mpr ⟨(j, true), hmem, rfl⟩
        · rw [if_neg hany, halerts] at hs'
          simp only [Option.map_some', Option.some.injEq] at hs'
          exact absurd (hrs ▸ hs') hne

/-- C5 (confirmed): over any run of track/resolve/view operations from the
empty ledger, every tracked record's status is `critical` or `ok` and
nothing else; a record enters the ledger with status `critical`; once a
record reads `ok` no operation changes it back; and the only possible
status change is `critical → ok`, caused exactly by a resolve operation
whose delivery for that record succeeded. -/
theorem claim_C5_status_monotonic (ops : List LedgerOp) :
    (∀ r ∈ runOps ops, r.status = "critical" ∨ r.status = "ok")
      ∧ (∀ p ev t, (track_sent_alert p ev t).status = "critical")
      ∧ (∀ i op, statusAt (runOps ops) i = some "ok" →
          statusAt (applyOp (runOps ops) op) i = some "ok")
      ∧ (∀ i op s s', statusAt (runOps ops) i = some s →
          statusAt (applyOp (runOps ops) op) i = some s' → s ≠ s' →
          s = "critical" ∧ s' = "ok"
            ∧ ∃ sel auto conf outs iso,
                op = LedgerOp.resolve sel auto conf outs iso
                  ∧ i ∈ successIdx (runOps ops) sel auto outs) := by
  refine ⟨runOps_status_wf ops, fun p ev t => rfl,
    fun i op h => applyOp_preserves_ok (runOps ops) op i h,
    fun i op s s' hs hs' hne => ?_⟩
  obtain ⟨hok, hsok, hres⟩ := applyOp_status_change (runOps ops) op i s s' hs hs' hne
  refine ⟨?_, hok, hres⟩
  rcases halerts : (runOps ops)[i]? with _ | r
  · rw [statusAt, halerts] at hs
    cases hs
  · have hrs : r.status = s := by
      rw [statusAt, halerts] at hs
      simpa using hs
    rcases runOps_status_wf ops r (List.getElem?_mem halerts) with hcrit | habs
    · rw [← hrs]
      exact hcrit
    · exact absurd (hrs ▸ habs) hsok

/-- Witness for C5: a run with one tracked alert; resolving it flips the
status to `ok`, the change is attributed to the successful resolve, and a
further operation leaves the `ok` status in place. -/
theorem claim_C5_witness :
    ("critical" = "critical" ∧ "ok" = "ok"
      ∧ ∃ sel auto conf outs iso,
          (LedgerOp.resolve [] true true [true] "i0")
              = LedgerOp.resolve sel auto conf outs iso
            ∧ 0 ∈ successIdx (runOps [LedgerOp.track [] none "t0"]) sel auto outs)
      ∧ statusAt (applyOp (runOps [LedgerOp.track [] none "t0",
          LedgerOp.resolve [] true true [true] "i0"]) LedgerOp.view) 0 = some "ok" := by
  constructor
  · exact (claim_C5_status_monotonic [LedgerOp.track [] none "t0"]).2.2.2 0
      (LedgerOp.resolve [] true true [true] "i0") "critical" "ok" rfl rfl
      (by decide)
  · exact (claim_C5_status_monotonic [LedgerOp.track [] none "t0",
      LedgerOp.resolve [] true true [true] "i0"]).2.2.1 0 LedgerOp.view rfl

/-- C6 (confirmed): a resolve batch over distinct selected active records
treats every record independently — a record whose delivery succeeded is
exactly its old snapshot with `status = "ok"` and `resolved_at` set, a
record whose delivery failed is byte-for-byte unchanged (so it stays
selectable for retry), unselected records are unchanged — and the ledger
document is saved exactly once after the whole batch, whatever the
individual outcomes. -/
theorem claim_C6_batch_independent (alerts : List TrackedRec) (sel : List Int)
    (auto conf : Bool) (outs : List Bool) (iso : String) (toR : List Nat)
    (htoR : toResolveOf alerts sel auto = toR)
    (hne : toR ≠ [])
    (hconf : auto = true ∨ conf = true)
    (_hlen : outs.length = toR.length)
    (hnd : toR.Nodup) :
    (resolve_alerts alerts sel auto conf outs iso).2 = 1
      ∧ (∀ k j : Nat, toR[k]? = some j → outs[k]? = some true →
          ((resolve_alerts alerts sel auto conf outs iso).1)[j]?
            = (alerts[j]?).map (fun r => resolveRecord r iso))
      ∧ (∀ k j : Nat, toR[k]? = some j → outs[k]? = some false →
          ((resolve_alerts alerts sel auto conf outs iso).1)[j]? = alerts[j]?)
      ∧ (∀ j : Nat, j ∉ toR →
          ((resolve_alerts alerts sel auto conf outs iso).1)[j]? = alerts[j]?) := by
  have hc : ¬(auto = false ∧ conf = false) := by
    rcases hconf with h | h <;> simp [h]
  have hres : resolve_alerts alerts sel auto conf outs iso
      = (resolveLoop alerts (toR.zip outs) iso, 1) := by
    rw [resolve_alerts, htoR, if_neg hne, if_neg hc]
  rw [hres]
  refine ⟨rfl, ?_, ?_, ?_⟩
  · intro k j hk houts
    rw [resolveLoop_getElem?]
    have hmem : (j, true) ∈ toR.zip outs :=
      (mem_zip_iff_getElem? toR outs j true).mpr ⟨k, hk, houts⟩
    rw [if_pos (List.any_eq_true.mpr ⟨(j, true), hmem, by simp⟩)]
  · intro k j hk houts
    rw [resolveLoop_getElem?]
    have hany : ((toR.zip outs).any fun p => p.1 == j && p.2) = false := by
      by_contra hab
      rw [Bool.not_eq_false, List.any_eq_true] at hab
      obtain ⟨⟨j', b⟩, hmem, hp⟩ := hab
      obtain ⟨hji, hb⟩ := (Bool.and_eq_true _ _).mp hp
      have hj' : j' = j := beq_iff_eq.mp hji
      subst hj'
      subst hb
      obtain ⟨k', hk', houts'⟩ := (mem_zip_iff_getElem? toR outs j' true).mp hmem
      have hkk : k' = k := nodup_getElem?_inj hnd hk' hk
      rw [hkk, houts] at houts'
      cases houts'
    rw [hany]
    simp
  · intro j hj
    rw [resolveLoop_getElem?]
    have hany : ((toR.zip outs).any fun p => p.1 == j && p.2) = false := by
      by_contra hab
      rw [Bool.not_eq_false, List.any_eq_true] at hab
      obtain ⟨⟨j', b⟩, hmem, hp⟩ := hab
      obtain ⟨hji, hb⟩ := (Bool.and_eq_true _ _).mp hp
      have hj' : j' = j := beq_iff_eq.mp hji
      subst hj'
      exact hj (List.of_mem_zip hmem).1
    rw [hany]
    simp

/-- Witness for C6: two tracked records, auto-resolving all with the first
delivery succeeding and the second failing — one save, the first record
resolved, the second untouched. -/
theorem claim_C6_witness :
    (resolve_alerts [track_sent_alert [] none "t", track_sent_alert [] none "u"]
        [] true true [true, false] "i").2 = 1
      ∧ ((resolve_alerts [track_sent_alert [] none "t", track_sent_alert [] none "u"]
            [] true true [true, false] "i").1)[0]?
          = some (resolveRecord (track_sent_alert [] none "t") "i")
      ∧ ((resolve_alerts [track_sent_alert [] none "t", track_sent_alert [] none "u"]
            [] true true [true, false] "i").1)[1]?
          = some (track_sent_alert [] none "u") := by
  have h := claim_C6_batch_independent
    [track_sent_alert [] none "t", track_sent_alert [] none "u"]
    [] true true [true, false] "i" [0, 1] rfl (by decide) (Or.inl rfl) rfl (by decide)
  exact ⟨h.1, h.2.1 0 0 rfl rfl, h.2.2.1 1 1 rfl rfl⟩

/-- Witness for C9: a config whose org token is empty is reported missing,
and the run stops at the help screen. -/
theorem claim_C9_witness :
    ("BIGPANDA_ORG_ACCESS_TOKEN" ∈ _validate_config (Config.mk "" "k" "o"))
      ∧ run_effects (Config.mk "" "k" "o") [RunEffect.fetch_op]
          = [RunEffect.banner,
             RunEffect.config_help (_validate_config (Config.mk "" "k" "o"))] := by
  have h := claim_C9_config_gate (Config.mk "" "k" "o") [RunEffect.fetch_op]
  refine ⟨(h.1 "BIGPANDA_ORG_ACCESS_TOKEN").mpr ?_, h.2 ?_⟩
  · exact Or.inl ⟨rfl, Or.inl rfl⟩
  · intro habs
    exact absurd habs (by decide)
